import Mathlib

/-!
Shallow embedding of the debug-message bridge in
src/bindings/gumjs/gumv8scriptbackend.cpp.

Each C function is translated into a Lean function from the backend
private state to a new state together with a list of observable events
in program order.  Pointers are modelled as natural numbers with 0 or
Option.none standing for NULL, the registry mutex and the engine
(isolate) lock appear as acquire and release events, and persistent
debug-context handles are tracked in an explicit allocation list so
that leaks are observable.
-/

/-- Jobs pushed onto the script scheduler via
gum_script_scheduler_push_job_on_js_thread. -/
inductive JobKind where
  | enableDebugger
  | disableDebugger
  | processDebugMessages
  deriving DecidableEq, Repr, Inhabited

/-- Observable actions performed by the backend, in program order. -/
inductive Event where
  /-- priv->debug_handler_data_destroy (priv->debug_handler_data) -/
  | destroyNotify (destroy : Nat) (data : Nat)
  /-- the three assignments to debug_handler, debug_handler_data and
  debug_handler_data_destroy (the registration swap) -/
  | assignHandler (handler : Option Nat) (data : Nat) (data_destroy : Option Nat)
  /-- g_main_context_ref_thread_default -/
  | refThreadDefaultContext (context : Nat)
  /-- g_mutex_lock on the backend mutex -/
  | lockAcquire
  /-- g_mutex_unlock on the backend mutex -/
  | lockRelease
  /-- the swap of priv->debug_handler_context under the mutex -/
  | swapContext (oldContext newContext : Option Nat)
  /-- g_main_context_unref -/
  | contextUnref (context : Nat)
  /-- gum_script_scheduler_push_job_on_js_thread -/
  | pushJobOnJsThread (job : JobKind)
  /-- v8 Locker acquisition (engine execution lock) -/
  | engineLockAcquire
  /-- v8 Locker release (engine execution lock) -/
  | engineLockRelease
  /-- Debug SetMessageHandler: true installs the emit hook, false clears it -/
  | setMessageHandler (installed : Bool)
  /-- new GumPersistent Context (isolate, context) -/
  | newDebugContext (handle : Nat)
  /-- delete priv->debug_context on a non-null handle -/
  | deleteDebugContext (handle : Nat)
  /-- gum_v8_bundle_run on the debug runtime -/
  | runDebugRuntime
  /-- g_slice_new GumV8EmitDebugMessageData plus g_strdup of the message -/
  | envelopeCreate (message : String)
  /-- g_object_ref (self) -/
  | refBackend
  /-- g_idle_source_new, g_source_set_callback, g_source_attach -/
  | attachIdleSource (context : Nat)
  /-- priv->debug_handler (message, priv->debug_handler_data) -/
  | invokeHandler (handler : Nat) (message : String) (data : Nat)
  /-- g_free (d->message) -/
  | freeMessage (message : String)
  /-- g_object_unref (d->backend) -/
  | unrefBackend
  /-- Debug SendCommand (isolate, command, command_length) -/
  | sendCommand (command : List Nat)
  /-- g_free (command) -/
  | freeCommand
  /-- delete priv->platform -/
  | deletePlatform
  /-- g_mutex_clear -/
  | clearMutex
  /-- Debug ProcessDebugMessages -/
  | processDebugMessages
  deriving DecidableEq, Repr, Inhabited

/-- State of struct _GumV8ScriptBackendPrivate, with bookkeeping for the
allocation of persistent debug-context handles so leaks are visible:
live_debug_contexts lists the handles allocated by new and not yet
deleted, next_debug_context is a fresh-allocation counter. -/
structure GumV8ScriptBackendPrivate where
  debug_handler : Option Nat
  debug_handler_data : Nat
  debug_handler_data_destroy : Option Nat
  debug_handler_context : Option Nat
  debug_context : Option Nat
  live_debug_contexts : List Nat
  next_debug_context : Nat
  message_handler_installed : Bool
  platform_alive : Bool
  deriving DecidableEq, Repr

/-- struct _GumV8EmitDebugMessageData: the pending message envelope.  The
strong backend reference appears as refBackend and unrefBackend events. -/
structure GumV8EmitDebugMessageData where
  message : String
  deriving DecidableEq, Repr

/-- State produced by gum_v8_script_backend_init: no handler, no context,
no debug session, platform allocated. -/
def gum_v8_script_backend_init : GumV8ScriptBackendPrivate :=
  { debug_handler := none
    debug_handler_data := 0
    debug_handler_data_destroy := none
    debug_handler_context := none
    debug_context := none
    live_debug_contexts := []
    next_debug_context := 0
    message_handler_installed := false
    platform_alive := true }

/-- gum_v8_script_backend_set_debug_message_handler (lines 229 to 264).
thread_default_context models g_main_context_ref_thread_default for the
calling thread.  Program order: invoke the previous destructor if any,
assign the three handler fields, resolve the new context, swap the
context field under the mutex, unref the old context outside the mutex,
push the enable or disable job. -/
def gum_v8_script_backend_set_debug_message_handler
    (priv : GumV8ScriptBackendPrivate) (handler : Option Nat) (data : Nat)
    (data_destroy : Option Nat) (thread_default_context : Nat) :
    GumV8ScriptBackendPrivate × List Event :=
  let ev1 : List Event :=
    match priv.debug_handler_data_destroy with
    | some d => [Event.destroyNotify d priv.debug_handler_data]
    | none => []
  let priv1 := { priv with
    debug_handler := handler
    debug_handler_data := data
    debug_handler_data_destroy := data_destroy }
  let new_context : Option Nat :=
    if handler.isSome then some thread_default_context else none
  let ev2 : List Event :=
    if handler.isSome then [Event.refThreadDefaultContext thread_default_context]
    else []
  let old_context := priv1.debug_handler_context
  let priv2 := { priv1 with debug_handler_context := new_context }
  let ev3 : List Event :=
    [Event.lockAcquire, Event.swapContext old_context new_context,
     Event.lockRelease]
  let ev4 : List Event :=
    match old_context with
    | some c => [Event.contextUnref c]
    | none => []
  let ev5 : List Event :=
    [Event.pushJobOnJsThread
      (if handler.isSome then JobKind.enableDebugger
       else JobKind.disableDebugger)]
  (priv2,
   ev1 ++ [Event.assignHandler handler data data_destroy]
       ++ ev2 ++ ev3 ++ ev4 ++ ev5)

/-- gum_v8_script_backend_enable_debugger (lines 266 to 284): under the
engine lock, install the message handler, allocate a fresh persistent
debug-context handle and store it (the previous stored handle, if any,
is overwritten without being deleted), run the debug runtime bundle. -/
def gum_v8_script_backend_enable_debugger
    (priv : GumV8ScriptBackendPrivate) :
    GumV8ScriptBackendPrivate × List Event :=
  let h := priv.next_debug_context
  ({ priv with
      message_handler_installed := true
      debug_context := some h
      live_debug_contexts := h :: priv.live_debug_contexts
      next_debug_context := h + 1 },
   [Event.engineLockAcquire, Event.setMessageHandler true,
    Event.newDebugContext h, Event.runDebugRuntime,
    Event.engineLockRelease])

/-- gum_v8_script_backend_disable_debugger (lines 286 to 301): under the
engine lock, delete the stored persistent handle (delete on a null
pointer is a no-op), null the field, clear the message handler. -/
def gum_v8_script_backend_disable_debugger
    (priv : GumV8ScriptBackendPrivate) :
    GumV8ScriptBackendPrivate × List Event :=
  let delEv : List Event :=
    match priv.debug_context with
    | some c => [Event.deleteDebugContext c]
    | none => []
  let live : List Nat :=
    match priv.debug_context with
    | some c => priv.live_debug_contexts.erase c
    | none => priv.live_debug_contexts
  ({ priv with
      debug_context := none
      live_debug_contexts := live
      message_handler_installed := false },
   [Event.engineLockAcquire] ++ delEv
     ++ [Event.setMessageHandler false, Event.engineLockRelease])

/-- gum_v8_script_backend_dispose (lines 155 to 172): invoke the handler
destructor if present, null the three handler fields, clear and unref
the loop context, then disable the debugger. -/
def gum_v8_script_backend_dispose
    (priv : GumV8ScriptBackendPrivate) :
    GumV8ScriptBackendPrivate × List Event :=
  let ev1 : List Event :=
    match priv.debug_handler_data_destroy with
    | some d => [Event.destroyNotify d priv.debug_handler_data]
    | none => []
  let priv1 := { priv with
    debug_handler := none
    debug_handler_data := 0
    debug_handler_data_destroy := none }
  let ev2 : List Event :=
    match priv1.debug_handler_context with
    | some c => [Event.contextUnref c]
    | none => []
  let priv2 := { priv1 with debug_handler_context := none }
  let r := gum_v8_script_backend_disable_debugger priv2
  (r.1, ev1 ++ ev2 ++ r.2)

/-- gum_v8_script_backend_finalize (lines 174 to 185): delete the
platform (the engine instance) and clear the mutex. -/
def gum_v8_script_backend_finalize
    (priv : GumV8ScriptBackendPrivate) :
    GumV8ScriptBackendPrivate × List Event :=
  ({ priv with platform_alive := false },
   [Event.deletePlatform, Event.clearMutex])

/-- Full GObject destruction: dispose followed by finalize. -/
def gum_v8_script_backend_destroy
    (priv : GumV8ScriptBackendPrivate) :
    GumV8ScriptBackendPrivate × List Event :=
  let r1 := gum_v8_script_backend_dispose priv
  let r2 := gum_v8_script_backend_finalize r1.1
  (r2.1, r1.2 ++ r2.2)

/-- gum_v8_script_backend_emit_debug_message (lines 303 to 337), the
outbound capture path running on the engine thread: read the loop
context under the mutex; if null, return with nothing scheduled;
otherwise build an envelope holding a copy of the message and a strong
backend reference and attach an idle source to the captured context.
Returns the unchanged state, the events, and the envelope if one was
created. -/
def gum_v8_script_backend_emit_debug_message
    (priv : GumV8ScriptBackendPrivate) (json : String) :
    GumV8ScriptBackendPrivate × List Event ×
      Option GumV8EmitDebugMessageData :=
  match priv.debug_handler_context with
  | none => (priv, [Event.lockAcquire, Event.lockRelease], none)
  | some c =>
      (priv,
       [Event.lockAcquire, Event.lockRelease,
        Event.envelopeCreate json, Event.refBackend,
        Event.attachIdleSource c, Event.contextUnref c],
       some { message := json })

/-- gum_v8_script_backend_do_emit_debug_message (lines 339 to 349), the
delivery callback on the client event-loop thread: read the current
handler registration and invoke it if non-null; returns FALSE so the
idle source fires once. -/
def gum_v8_script_backend_do_emit_debug_message
    (priv : GumV8ScriptBackendPrivate) (d : GumV8EmitDebugMessageData) :
    Bool × List Event :=
  (false,
   match priv.debug_handler with
   | some h => [Event.invokeHandler h d.message priv.debug_handler_data]
   | none => [])

/-- gum_v8_emit_debug_message_data_free (lines 351 to 358): free the
message copy and drop the strong backend reference. -/
def gum_v8_emit_debug_message_data_free
    (d : GumV8EmitDebugMessageData) : List Event :=
  [Event.freeMessage d.message, Event.unrefBackend]

/-- One full envelope delivery: the idle-source callback followed by the
GDestroyNotify of the envelope.  priv is the backend state at delivery
time. -/
def deliverEnvelope (priv : GumV8ScriptBackendPrivate)
    (d : GumV8EmitDebugMessageData) : List Event :=
  (gum_v8_script_backend_do_emit_debug_message priv d).2
    ++ gum_v8_emit_debug_message_data_free d

/-- UTF-16 encoding of one Unicode scalar value, as produced by
g_utf8_to_utf16: one code unit below 0x10000, otherwise a surrogate
pair. -/
def utf16EncodeChar (cp : Nat) : List Nat :=
  if cp < 0x10000 then [cp]
  else [0xD800 + (cp - 0x10000) / 0x400, 0xDC00 + (cp - 0x10000) % 0x400]

set_option maxRecDepth 8192
/-- g_utf8_to_utf16 over the byte list of the NUL-terminated input (err
and items_read NULL): decodes UTF-8 byte by byte, rejecting truncated
sequences, stray continuation bytes, overlong forms, surrogate code
points and values above 0x10FFFF; returns none where the C function
returns NULL. -/
def g_utf8_to_utf16 : List Nat → Option (List Nat)
  | [] => some []
  | b0 :: rest =>
    if b0 ≤ 0x7F then
      (g_utf8_to_utf16 rest).map (fun t => utf16EncodeChar b0 ++ t)
    else if 0xC2 ≤ b0 ∧ b0 ≤ 0xDF then
      match rest with
      | [] => none
      | b1 :: rest1 =>
        if 0x80 ≤ b1 ∧ b1 ≤ 0xBF then
          (g_utf8_to_utf16 rest1).map
            (fun t => utf16EncodeChar ((b0 - 0xC0) * 0x40 + (b1 - 0x80)) ++ t)
        else none
    else if 0xE0 ≤ b0 ∧ b0 ≤ 0xEF then
      match rest with
      | [] => none
      | b1 :: rest1 =>
        match rest1 with
        | [] => none
        | b2 :: rest2 =>
          if (0x80 ≤ b1 ∧ b1 ≤ 0xBF) ∧ (0x80 ≤ b2 ∧ b2 ≤ 0xBF) then
            if 0x800 ≤ (b0 - 0xE0) * 0x1000 + (b1 - 0x80) * 0x40 + (b2 - 0x80) ∧
                ¬ (0xD800 ≤ (b0 - 0xE0) * 0x1000 + (b1 - 0x80) * 0x40 + (b2 - 0x80) ∧
                   (b0 - 0xE0) * 0x1000 + (b1 - 0x80) * 0x40 + (b2 - 0x80) ≤ 0xDFFF) then
              (g_utf8_to_utf16 rest2).map
                (fun t => utf16EncodeChar
                  ((b0 - 0xE0) * 0x1000 + (b1 - 0x80) * 0x40 + (b2 - 0x80)) ++ t)
            else none
          else none
    else if 0xF0 ≤ b0 ∧ b0 ≤ 0xF4 then
      match rest with
      | [] => none
      | b1 :: rest1 =>
        match rest1 with
        | [] => none
        | b2 :: rest2 =>
          match rest2 with
          | [] => none
          | b3 :: rest3 =>
            if (0x80 ≤ b1 ∧ b1 ≤ 0xBF) ∧ (0x80 ≤ b2 ∧ b2 ≤ 0xBF)
                ∧ (0x80 ≤ b3 ∧ b3 ≤ 0xBF) then
              if 0x10000 ≤ (b0 - 0xF0) * 0x40000 + (b1 - 0x80) * 0x1000
                    + (b2 - 0x80) * 0x40 + (b3 - 0x80) ∧
                  (b0 - 0xF0) * 0x40000 + (b1 - 0x80) * 0x1000
                    + (b2 - 0x80) * 0x40 + (b3 - 0x80) ≤ 0x10FFFF then
                (g_utf8_to_utf16 rest3).map
                  (fun t => utf16EncodeChar
                    ((b0 - 0xF0) * 0x40000 + (b1 - 0x80) * 0x1000
                      + (b2 - 0x80) * 0x40 + (b3 - 0x80)) ++ t)
              else none
            else none
    else none

/-- The UTF-8 well-formedness grammar at the byte level: the boundary
contract for the message argument of post_debug_message. -/
inductive ValidUtf8 : List Nat → Prop where
  | nil : ValidUtf8 []
  | one {b0 : Nat} {rest : List Nat} :
      b0 ≤ 0x7F → ValidUtf8 rest → ValidUtf8 (b0 :: rest)
  | two {b0 b1 : Nat} {rest : List Nat} :
      0xC2 ≤ b0 → b0 ≤ 0xDF → 0x80 ≤ b1 → b1 ≤ 0xBF →
      ValidUtf8 rest → ValidUtf8 (b0 :: b1 :: rest)
  | three {b0 b1 b2 : Nat} {rest : List Nat} :
      0xE0 ≤ b0 → b0 ≤ 0xEF →
      0x80 ≤ b1 → b1 ≤ 0xBF → 0x80 ≤ b2 → b2 ≤ 0xBF →
      0x800 ≤ (b0 - 0xE0) * 0x1000 + (b1 - 0x80) * 0x40 + (b2 - 0x80) →
      ¬ (0xD800 ≤ (b0 - 0xE0) * 0x1000 + (b1 - 0x80) * 0x40 + (b2 - 0x80)
          ∧ (b0 - 0xE0) * 0x1000 + (b1 - 0x80) * 0x40 + (b2 - 0x80) ≤ 0xDFFF) →
      ValidUtf8 rest → ValidUtf8 (b0 :: b1 :: b2 :: rest)
  | four {b0 b1 b2 b3 : Nat} {rest : List Nat} :
      0xF0 ≤ b0 → b0 ≤ 0xF4 →
      0x80 ≤ b1 → b1 ≤ 0xBF → 0x80 ≤ b2 → b2 ≤ 0xBF → 0x80 ≤ b3 → b3 ≤ 0xBF →
      0x10000 ≤ (b0 - 0xF0) * 0x40000 + (b1 - 0x80) * 0x1000
          + (b2 - 0x80) * 0x40 + (b3 - 0x80) →
      (b0 - 0xF0) * 0x40000 + (b1 - 0x80) * 0x1000
          + (b2 - 0x80) * 0x40 + (b3 - 0x80) ≤ 0x10FFFF →
      ValidUtf8 rest → ValidUtf8 (b0 :: b1 :: b2 :: b3 :: rest)

/-- gum_v8_script_backend_post_debug_message (lines 360 to 387): return
immediately when no handler is registered; otherwise transcode the
message, abort on the g_assert if the transcoder returned NULL (modelled
as none), and else send the command and push one drain job.  The state
is never mutated. -/
def gum_v8_script_backend_post_debug_message
    (priv : GumV8ScriptBackendPrivate) (message : List Nat) :
    Option (GumV8ScriptBackendPrivate × List Event) :=
  if priv.debug_handler = none then some (priv, [])
  else
    match g_utf8_to_utf16 message with
    | none => none
    | some command =>
        some (priv,
          [Event.sendCommand command, Event.freeCommand,
           Event.pushJobOnJsThread JobKind.processDebugMessages])

/-- gum_v8_script_backend_do_process_debug_messages (lines 389 to 402):
the drain job dereferences priv->debug_context unconditionally; a null
stored handle is undefined behaviour, modelled as none. -/
def gum_v8_script_backend_do_process_debug_messages
    (priv : GumV8ScriptBackendPrivate) : Option (List Event) :=
  match priv.debug_context with
  | some _ =>
      some [Event.engineLockAcquire, Event.processDebugMessages,
            Event.engineLockRelease]
  | none => none

/-- True exactly on destroyNotify events. -/
def isDestroyNotify : Event → Bool
  | Event.destroyNotify _ _ => true
  | _ => false

/-- True exactly on assignHandler events (the registration swap). -/
def isAssignHandler : Event → Bool
  | Event.assignHandler _ _ _ => true
  | _ => false

/-- True exactly on swapContext events (the loop-context swap under the
mutex). -/
def isSwapContext : Event → Bool
  | Event.swapContext _ _ => true
  | _ => false

/-- True exactly on deleteDebugContext events. -/
def isDeleteDebugContext : Event → Bool
  | Event.deleteDebugContext _ => true
  | _ => false

/-- True exactly on deletePlatform events. -/
def isDeletePlatform : Event → Bool
  | Event.deletePlatform => true
  | _ => false

/-- True exactly on setMessageHandler false events (clearing the engine
notification hook). -/
def isClearMessageHandler : Event → Bool
  | Event.setMessageHandler b => !b
  | _ => false

/-- True exactly on envelopeCreate events. -/
def isEnvelopeCreate : Event → Bool
  | Event.envelopeCreate _ => true
  | _ => false

/-- True exactly on attachIdleSource events. -/
def isAttachIdleSource : Event → Bool
  | Event.attachIdleSource _ => true
  | _ => false

/-- True exactly on pushJobOnJsThread events. -/
def isPushJob : Event → Bool
  | Event.pushJobOnJsThread _ => true
  | _ => false

/-- The backend mutex is not held before position i of the trace: the
acquires and releases among the first i events balance. -/
abbrev outsideLockAt (tr : List Event) (i : Nat) : Prop :=
  (tr.take i).count Event.lockAcquire = (tr.take i).count Event.lockRelease

/-- The ordering asserted by the spec for set_debug_message_handler: the
destructor runs exactly once, after the registration swap and after the
loop-context swap, outside the mutex. -/
abbrev destroyAfterSwapSpec (tr : List Event) : Prop :=
  tr.countP isDestroyNotify = 1 ∧
  tr.findIdx isAssignHandler < tr.findIdx isDestroyNotify ∧
  tr.findIdx isSwapContext < tr.findIdx isDestroyNotify ∧
  outsideLockAt tr (tr.findIdx isDestroyNotify)

/-- A state with handler 7, data 9, destructor 3 registered and loop
context 11, no active session. -/
def sampleRegistered : GumV8ScriptBackendPrivate :=
  { gum_v8_script_backend_init with
      debug_handler := some 7
      debug_handler_data := 9
      debug_handler_data_destroy := some 3
      debug_handler_context := some 11 }

/-- sampleRegistered after the enable job has run: session enabled with
one live persistent handle. -/
def sampleEnabled : GumV8ScriptBackendPrivate :=
  { sampleRegistered with
      debug_context := some 0
      live_debug_contexts := [0]
      next_debug_context := 1
      message_handler_installed := true }

/-- One decoding step of g_utf8_to_utf16 on an ASCII byte. -/
theorem g_utf8_to_utf16_step_one (b0 : Nat) (rest : List Nat)
    (h : b0 ≤ 0x7F) :
    g_utf8_to_utf16 (b0 :: rest) =
      (g_utf8_to_utf16 rest).map (fun t => utf16EncodeChar b0 ++ t) := by
  rcases rest with _ | ⟨b1, _ | ⟨b2, _ | ⟨b3, t⟩⟩⟩ <;>
    simp only [g_utf8_to_utf16] <;> rw [if_pos h]

/-- One decoding step of g_utf8_to_utf16 on a well-formed two-byte
sequence. -/
theorem g_utf8_to_utf16_step_two (b0 b1 : Nat) (rest : List Nat)
    (h1 : 0xC2 ≤ b0) (h2 : b0 ≤ 0xDF) (h3 : 0x80 ≤ b1) (h4 : b1 ≤ 0xBF) :
    g_utf8_to_utf16 (b0 :: b1 :: rest) =
      (g_utf8_to_utf16 rest).map
        (fun t => utf16EncodeChar ((b0 - 0xC0) * 0x40 + (b1 - 0x80)) ++ t) := by
  rcases rest with _ | ⟨b2, _ | ⟨b3, t⟩⟩ <;>
    simp only [g_utf8_to_utf16] <;>
    rw [if_neg (by omega), if_pos ⟨h1, h2⟩, if_pos ⟨h3, h4⟩]

/-- One decoding step of g_utf8_to_utf16 on a well-formed three-byte
sequence. -/
theorem g_utf8_to_utf16_step_three (b0 b1 b2 : Nat) (rest : List Nat)
    (h1 : 0xE0 ≤ b0) (h2 : b0 ≤ 0xEF)
    (h3 : 0x80 ≤ b1) (h4 : b1 ≤ 0xBF) (h5 : 0x80 ≤ b2) (h6 : b2 ≤ 0xBF)
    (h7 : 0x800 ≤ (b0 - 0xE0) * 0x1000 + (b1 - 0x80) * 0x40 + (b2 - 0x80))
    (h8 : ¬ (0xD800 ≤ (b0 - 0xE0) * 0x1000 + (b1 - 0x80) * 0x40 + (b2 - 0x80)
        ∧ (b0 - 0xE0) * 0x1000 + (b1 - 0x80) * 0x40 + (b2 - 0x80) ≤ 0xDFFF)) :
    g_utf8_to_utf16 (b0 :: b1 :: b2 :: rest) =
      (g_utf8_to_utf16 rest).map
        (fun t => utf16EncodeChar
          ((b0 - 0xE0) * 0x1000 + (b1 - 0x80) * 0x40 + (b2 - 0x80)) ++ t) := by
  rcases rest with _ | ⟨b3, t⟩ <;>
    simp only [g_utf8_to_utf16] <;>
    rw [if_neg (by omega), if_neg (by omega), if_pos ⟨h1, h2⟩,
      if_pos ⟨⟨h3, h4⟩, ⟨h5, h6⟩⟩, if_pos ⟨h7, h8⟩]

/-- One decoding step of g_utf8_to_utf16 on a well-formed four-byte
sequence. -/
theorem g_utf8_to_utf16_step_four (b0 b1 b2 b3 : Nat) (rest : List Nat)
    (h1 : 0xF0 ≤ b0) (h2 : b0 ≤ 0xF4)
    (h3 : 0x80 ≤ b1) (h4 : b1 ≤ 0xBF) (h5 : 0x80 ≤ b2) (h6 : b2 ≤ 0xBF)
    (h7 : 0x80 ≤ b3) (h8 : b3 ≤ 0xBF)
    (h9 : 0x10000 ≤ (b0 - 0xF0) * 0x40000 + (b1 - 0x80) * 0x1000
        + (b2 - 0x80) * 0x40 + (b3 - 0x80))
    (h10 : (b0 - 0xF0) * 0x40000 + (b1 - 0x80) * 0x1000
        + (b2 - 0x80) * 0x40 + (b3 - 0x80) ≤ 0x10FFFF) :
    g_utf8_to_utf16 (b0 :: b1 :: b2 :: b3 :: rest) =
      (g_utf8_to_utf16 rest).map
        (fun t => utf16EncodeChar
          ((b0 - 0xF0) * 0x40000 + (b1 - 0x80) * 0x1000
            + (b2 - 0x80) * 0x40 + (b3 - 0x80)) ++ t) := by
  simp only [g_utf8_to_utf16]
  rw [if_neg (by omega), if_neg (by omega), if_neg (by omega),
    if_pos ⟨h1, h2⟩, if_pos ⟨⟨h3, h4⟩, ⟨h5, h6⟩, ⟨h7, h8⟩⟩, if_pos ⟨h9, h10⟩]

/-- Valid UTF-8 input always transcodes successfully: g_utf8_to_utf16
never returns none on a byte list satisfying the UTF-8 grammar. -/
theorem valid_utf8_transcodes {bs : List Nat} (h : ValidUtf8 bs) :
    (g_utf8_to_utf16 bs).isSome := by
  induction h with
  | nil => simp [g_utf8_to_utf16]
  | one hb _ ih =>
      rw [g_utf8_to_utf16_step_one _ _ hb]
      rcases Option.isSome_iff_exists.mp ih with ⟨t, ht⟩
      rw [ht]
      rfl
  | two h1 h2 h3 h4 _ ih =>
      rw [g_utf8_to_utf16_step_two _ _ _ h1 h2 h3 h4]
      rcases Option.isSome_iff_exists.mp ih with ⟨t, ht⟩
      rw [ht]
      rfl
  | three h1 h2 h3 h4 h5 h6 h7 h8 _ ih =>
      rw [g_utf8_to_utf16_step_three _ _ _ _ h1 h2 h3 h4 h5 h6 h7 h8]
      rcases Option.isSome_iff_exists.mp ih with ⟨t, ht⟩
      rw [ht]
      rfl
  | four h1 h2 h3 h4 h5 h6 h7 h8 h9 h10 _ ih =>
      rw [g_utf8_to_utf16_step_four _ _ _ _ _ h1 h2 h3 h4 h5 h6 h7 h8 h9 h10]
      rcases Option.isSome_iff_exists.mp ih with ⟨t, ht⟩
      rw [ht]
      rfl

/-- C1 counterexample: in the trace of set_debug_message_handler on a
state with a previous destructor registered, the previous destructor is
NOT invoked after the registration swap: the code runs it first, before
the handler fields are assigned and before the loop-context swap under
the lock, so the ordering asserted by the spec fails at this concrete
input. -/
theorem set_debug_message_handler_destructor_not_after_swap :
    ¬ destroyAfterSwapSpec
      (gum_v8_script_backend_set_debug_message_handler sampleRegistered
        (some 2) 5 (some 6) 13).2 := by
  decide

/-- C1 (amended): whenever set_debug_message_handler replaces a
registration whose destructor is non-null, the previous destructor is
invoked exactly once, outside the lock, but BEFORE the registration swap
and before the loop-context swap, not after them. -/
theorem set_debug_message_handler_destructor_once_before_swap
    (priv : GumV8ScriptBackendPrivate) (handler : Option Nat) (data : Nat)
    (data_destroy : Option Nat) (ctx d : Nat)
    (h : priv.debug_handler_data_destroy = some d) :
    ((gum_v8_script_backend_set_debug_message_handler priv handler data
        data_destroy ctx).2.countP isDestroyNotify = 1) ∧
    ((gum_v8_script_backend_set_debug_message_handler priv handler data
        data_destroy ctx).2.findIdx isDestroyNotify <
      (gum_v8_script_backend_set_debug_message_handler priv handler data
        data_destroy ctx).2.findIdx isAssignHandler) ∧
    ((gum_v8_script_backend_set_debug_message_handler priv handler data
        data_destroy ctx).2.findIdx isDestroyNotify <
      (gum_v8_script_backend_set_debug_message_handler priv handler data
        data_destroy ctx).2.findIdx isSwapContext) ∧
    outsideLockAt
      (gum_v8_script_backend_set_debug_message_handler priv handler data
        data_destroy ctx).2
      ((gum_v8_script_backend_set_debug_message_handler priv handler data
        data_destroy ctx).2.findIdx isDestroyNotify) := by
  rcases handler with _ | hv <;>
    rcases hc : priv.debug_handler_context with _ | c <;>
      simp [gum_v8_script_backend_set_debug_message_handler, h, hc,
        isDestroyNotify, isAssignHandler, isSwapContext,
        List.findIdx_cons, List.countP_cons, outsideLockAt]

/-- Witness for C1 (amended) at a concrete registered state. -/
theorem set_debug_message_handler_destructor_once_before_swap_witness :
    ((gum_v8_script_backend_set_debug_message_handler sampleRegistered
        (some 2) 5 (some 6) 13).2.countP isDestroyNotify = 1) ∧
    ((gum_v8_script_backend_set_debug_message_handler sampleRegistered
        (some 2) 5 (some 6) 13).2.findIdx isDestroyNotify <
      (gum_v8_script_backend_set_debug_message_handler sampleRegistered
        (some 2) 5 (some 6) 13).2.findIdx isAssignHandler) ∧
    ((gum_v8_script_backend_set_debug_message_handler sampleRegistered
        (some 2) 5 (some 6) 13).2.findIdx isDestroyNotify <
      (gum_v8_script_backend_set_debug_message_handler sampleRegistered
        (some 2) 5 (some 6) 13).2.findIdx isSwapContext) ∧
    outsideLockAt
      (gum_v8_script_backend_set_debug_message_handler sampleRegistered
        (some 2) 5 (some 6) 13).2
      ((gum_v8_script_backend_set_debug_message_handler sampleRegistered
        (some 2) 5 (some 6) 13).2.findIdx isDestroyNotify) :=
  set_debug_message_handler_destructor_once_before_swap sampleRegistered
    (some 2) 5 (some 6) 13 3 rfl

/-- C2: the delivery callback reads the handler registration at delivery
time: with a handler registered at delivery it is invoked with the
envelope message text and the current opaque data, with no handler the
envelope is a silent no-op, and in either case the message copy is freed
and the backend reference dropped. -/
theorem do_emit_debug_message_reads_registration_at_delivery
    (priv : GumV8ScriptBackendPrivate) (d : GumV8EmitDebugMessageData) :
    (∀ hd, priv.debug_handler = some hd →
      deliverEnvelope priv d =
        [Event.invokeHandler hd d.message priv.debug_handler_data,
         Event.freeMessage d.message, Event.unrefBackend]) ∧
    (priv.debug_handler = none →
      deliverEnvelope priv d =
        [Event.freeMessage d.message, Event.unrefBackend]) := by
  constructor
  · intro hd hh
    simp [deliverEnvelope, gum_v8_script_backend_do_emit_debug_message,
      gum_v8_emit_debug_message_data_free, hh]
  · intro hh
    simp [deliverEnvelope, gum_v8_script_backend_do_emit_debug_message,
      gum_v8_emit_debug_message_data_free, hh]

/-- Witness for C2: an envelope captured at any time delivers with the
handler and data registered at delivery time. -/
theorem do_emit_debug_message_reads_registration_at_delivery_witness :
    deliverEnvelope sampleRegistered { message := "m" } =
      [Event.invokeHandler 7 "m" 9, Event.freeMessage "m",
       Event.unrefBackend] :=
  (do_emit_debug_message_reads_registration_at_delivery sampleRegistered
    { message := "m" }).1 7 rfl

/-- C3: destroying the backend while a handler with a destructor is
registered invokes the destructor exactly once, leaves the session
Disabled, and clears the notification hook, deletes the stored session
handle and runs the destructor before the platform (the engine instance)
is deleted. -/
theorem backend_destroy_disables_before_platform_delete
    (priv : GumV8ScriptBackendPrivate) (hd dt : Nat)
    (h1 : priv.debug_handler = some hd)
    (h2 : priv.debug_handler_data_destroy = some dt) :
    ((gum_v8_script_backend_destroy priv).2.countP isDestroyNotify = 1) ∧
    ((gum_v8_script_backend_destroy priv).1.debug_context = none) ∧
    ((gum_v8_script_backend_destroy priv).2.findIdx isClearMessageHandler <
      (gum_v8_script_backend_destroy priv).2.findIdx isDeletePlatform) ∧
    ((gum_v8_script_backend_destroy priv).2.findIdx isDestroyNotify <
      (gum_v8_script_backend_destroy priv).2.findIdx isDeletePlatform) ∧
    (priv.debug_context.isSome →
      (gum_v8_script_backend_destroy priv).2.findIdx isDeleteDebugContext <
        (gum_v8_script_backend_destroy priv).2.findIdx isDeletePlatform) := by
  rcases hc : priv.debug_handler_context with _ | c <;>
    rcases hs : priv.debug_context with _ | s <;>
      simp [gum_v8_script_backend_destroy, gum_v8_script_backend_dispose,
        gum_v8_script_backend_finalize, gum_v8_script_backend_disable_debugger,
        h2, hc, hs, isDestroyNotify, isClearMessageHandler, isDeletePlatform,
        isDeleteDebugContext, List.findIdx_cons, List.countP_cons]

/-- Witness for C3 at a concrete enabled state. -/
theorem backend_destroy_disables_before_platform_delete_witness :
    ((gum_v8_script_backend_destroy sampleEnabled).2.countP
        isDestroyNotify = 1) ∧
    ((gum_v8_script_backend_destroy sampleEnabled).1.debug_context = none) ∧
    ((gum_v8_script_backend_destroy sampleEnabled).2.findIdx
        isClearMessageHandler <
      (gum_v8_script_backend_destroy sampleEnabled).2.findIdx
        isDeletePlatform) ∧
    ((gum_v8_script_backend_destroy sampleEnabled).2.findIdx
        isDestroyNotify <
      (gum_v8_script_backend_destroy sampleEnabled).2.findIdx
        isDeletePlatform) ∧
    (sampleEnabled.debug_context.isSome →
      (gum_v8_script_backend_destroy sampleEnabled).2.findIdx
          isDeleteDebugContext <
        (gum_v8_script_backend_destroy sampleEnabled).2.findIdx
          isDeletePlatform) :=
  backend_destroy_disables_before_platform_delete sampleEnabled 7 3 rfl rfl

/-- C4 counterexample: enable_debugger is not no-op-safe under
double-enable: starting from the initial state, two enable calls leave
two live persistent session handles, so at most one live handle after a
sequence of enables is false. -/
theorem enable_debugger_double_enable_two_live_handles :
    ¬ ((gum_v8_script_backend_enable_debugger
        (gum_v8_script_backend_enable_debugger
          gum_v8_script_backend_init).1).1.live_debug_contexts.length ≤ 1) := by
  decide

/-- C4 (amended): enable_debugger invoked while the session is already
Enabled overwrites the stored session-handle pointer with a freshly
allocated handle without deleting the previous one: the previous handle
stays live (it leaks) and the number of live handles grows by one. -/
theorem enable_debugger_while_enabled_leaks_previous_handle
    (priv : GumV8ScriptBackendPrivate) (c : Nat)
    (h : priv.debug_context = some c)
    (hc : c ∈ priv.live_debug_contexts) :
    ((gum_v8_script_backend_enable_debugger priv).1.debug_context =
      some priv.next_debug_context) ∧
    (c ∈ (gum_v8_script_backend_enable_debugger priv).1.live_debug_contexts) ∧
    ((gum_v8_script_backend_enable_debugger
        priv).1.live_debug_contexts.length =
      priv.live_debug_contexts.length + 1) := by
  simp [gum_v8_script_backend_enable_debugger, hc]

/-- Witness for C4 (amended): second enable from the enabled initial
state leaks handle 0. -/
theorem enable_debugger_while_enabled_leaks_previous_handle_witness :
    ((gum_v8_script_backend_enable_debugger
        (gum_v8_script_backend_enable_debugger
          gum_v8_script_backend_init).1).1.debug_context =
      some (gum_v8_script_backend_enable_debugger
          gum_v8_script_backend_init).1.next_debug_context) ∧
    (0 ∈ (gum_v8_script_backend_enable_debugger
        (gum_v8_script_backend_enable_debugger
          gum_v8_script_backend_init).1).1.live_debug_contexts) ∧
    ((gum_v8_script_backend_enable_debugger
        (gum_v8_script_backend_enable_debugger
          gum_v8_script_backend_init).1).1.live_debug_contexts.length =
      (gum_v8_script_backend_enable_debugger
          gum_v8_script_backend_init).1.live_debug_contexts.length + 1) :=
  enable_debugger_while_enabled_leaks_previous_handle
    (gum_v8_script_backend_enable_debugger gum_v8_script_backend_init).1 0
    (by decide) (by decide)

/-- C5: post_debug_message with no handler registered returns
immediately: the state is unchanged and the event trace is empty, so no
command is sent and no job is scheduled. -/
theorem post_debug_message_no_handler_noop
    (priv : GumV8ScriptBackendPrivate) (message : List Nat)
    (h : priv.debug_handler = none) :
    gum_v8_script_backend_post_debug_message priv message =
      some (priv, []) := by
  simp [gum_v8_script_backend_post_debug_message, h]

/-- Witness for C5 at the initial state. -/
theorem post_debug_message_no_handler_noop_witness :
    gum_v8_script_backend_post_debug_message gum_v8_script_backend_init
      [104, 105] = some (gum_v8_script_backend_init, []) :=
  post_debug_message_no_handler_noop gum_v8_script_backend_init
    [104, 105] rfl

/-- C6: post_debug_message with a handler registered transcodes the
command, sends it to the engine command intake, and schedules exactly
one drain job on the engine thread; the state is unchanged. -/
theorem post_debug_message_sends_and_schedules_one_drain
    (priv : GumV8ScriptBackendPrivate) (message command : List Nat)
    (hd : Nat) (h1 : priv.debug_handler = some hd)
    (h2 : g_utf8_to_utf16 message = some command) :
    (gum_v8_script_backend_post_debug_message priv message =
      some (priv,
        [Event.sendCommand command, Event.freeCommand,
         Event.pushJobOnJsThread JobKind.processDebugMessages])) ∧
    ([Event.sendCommand command, Event.freeCommand,
      Event.pushJobOnJsThread JobKind.processDebugMessages].countP
        isPushJob = 1) := by
  constructor
  · simp [gum_v8_script_backend_post_debug_message, h1, h2]
  · simp [List.countP_cons, isPushJob]

/-- Witness for C6 at a concrete registered state and ASCII command. -/
theorem post_debug_message_sends_and_schedules_one_drain_witness :
    (gum_v8_script_backend_post_debug_message sampleRegistered [104, 105] =
      some (sampleRegistered,
        [Event.sendCommand [104, 105], Event.freeCommand,
         Event.pushJobOnJsThread JobKind.processDebugMessages])) ∧
    ([Event.sendCommand [104, 105], Event.freeCommand,
      Event.pushJobOnJsThread JobKind.processDebugMessages].countP
        isPushJob = 1) :=
  post_debug_message_sends_and_schedules_one_drain sampleRegistered
    [104, 105] [104, 105] 7 rfl (by decide)

/-- C7: emit_debug_message with no registered loop context returns after
the locked read with the state unchanged and no envelope: the trace is
just the lock round trip, so nothing is allocated, attached or
reported. -/
theorem emit_debug_message_no_context_discards
    (priv : GumV8ScriptBackendPrivate) (json : String)
    (h : priv.debug_handler_context = none) :
    (gum_v8_script_backend_emit_debug_message priv json =
      (priv, [Event.lockAcquire, Event.lockRelease], none)) ∧
    ([Event.lockAcquire, Event.lockRelease].countP isEnvelopeCreate = 0) ∧
    ([Event.lockAcquire, Event.lockRelease].countP isAttachIdleSource = 0) := by
  refine ⟨?_, by simp [List.countP_cons, isEnvelopeCreate],
    by simp [List.countP_cons, isAttachIdleSource]⟩
  simp [gum_v8_script_backend_emit_debug_message, h]

/-- Witness for C7 at the initial state. -/
theorem emit_debug_message_no_context_discards_witness :
    (gum_v8_script_backend_emit_debug_message gum_v8_script_backend_init
        "m" =
      (gum_v8_script_backend_init,
        [Event.lockAcquire, Event.lockRelease], none)) ∧
    ([Event.lockAcquire, Event.lockRelease].countP isEnvelopeCreate = 0) ∧
    ([Event.lockAcquire, Event.lockRelease].countP isAttachIdleSource = 0) :=
  emit_debug_message_no_context_discards gum_v8_script_backend_init "m" rfl

/-- C8: disable_debugger leaves the session reference empty and the
notification hook removed, and it is idempotent: running it on an
already Disabled state is safe and changes nothing, so disable after
disable equals disable. -/
theorem disable_debugger_idempotent (priv : GumV8ScriptBackendPrivate) :
    ((gum_v8_script_backend_disable_debugger priv).1.debug_context = none) ∧
    ((gum_v8_script_backend_disable_debugger
        priv).1.message_handler_installed = false) ∧
    ((gum_v8_script_backend_disable_debugger
        (gum_v8_script_backend_disable_debugger priv).1).1 =
      (gum_v8_script_backend_disable_debugger priv).1) := by
  rcases h : priv.debug_context with _ | c <;>
    simp [gum_v8_script_backend_disable_debugger, h]

/-- C9: with valid UTF-8 input the transcoder never returns null, so the
g_assert branch in post_debug_message is unreachable and the call never
aborts. -/
theorem post_debug_message_assert_unreachable
    (priv : GumV8ScriptBackendPrivate) (message : List Nat)
    (h : ValidUtf8 message) :
    (g_utf8_to_utf16 message).isSome ∧
    gum_v8_script_backend_post_debug_message priv message ≠ none := by
  have hs := valid_utf8_transcodes h
  refine ⟨hs, ?_⟩
  unfold gum_v8_script_backend_post_debug_message
  rcases hh : priv.debug_handler with _ | hv
  · simp
  · rcases ho : g_utf8_to_utf16 message with _ | cmd
    · rw [ho] at hs
      simp at hs
    · simp [ho]

/-- Witness for C9 on a concrete valid UTF-8 message. -/
theorem post_debug_message_assert_unreachable_witness :
    (g_utf8_to_utf16 [104]).isSome ∧
    gum_v8_script_backend_post_debug_message sampleRegistered [104] ≠
      none :=
  post_debug_message_assert_unreachable sampleRegistered [104]
    (ValidUtf8.one (by decide) ValidUtf8.nil)

/-- C10: dispose clears the handler, its data and its destructor to null
after running the destructor, so a second dispose runs no destructor and
an envelope delivered after disposal finds a null handler and is a
no-op. -/
theorem dispose_clears_registration
    (priv : GumV8ScriptBackendPrivate) (d : GumV8EmitDebugMessageData) :
    ((gum_v8_script_backend_dispose priv).1.debug_handler = none) ∧
    ((gum_v8_script_backend_dispose priv).1.debug_handler_data = 0) ∧
    ((gum_v8_script_backend_dispose priv).1.debug_handler_data_destroy =
      none) ∧
    ((gum_v8_script_backend_dispose
        (gum_v8_script_backend_dispose priv).1).2.countP
          isDestroyNotify = 0) ∧
    (deliverEnvelope (gum_v8_script_backend_dispose priv).1 d =
      [Event.freeMessage d.message, Event.unrefBackend]) := by
  rcases h1 : priv.debug_handler_data_destroy with _ | dt <;>
    rcases hc : priv.debug_handler_context with _ | c <;>
      rcases hs : priv.debug_context with _ | s <;>
        simp [gum_v8_script_backend_dispose,
          gum_v8_script_backend_disable_debugger, deliverEnvelope,
          gum_v8_script_backend_do_emit_debug_message,
          gum_v8_emit_debug_message_data_free, h1, hc, hs,
          isDestroyNotify, List.countP_cons]
